import Mathlib

set_option maxHeartbeats 1000000
set_option maxRecDepth 4000

/-! Shallow embedding of the Node-Maw repository core: the version comparator,
    the two store clients' validation/retry/normalization logic, and the
    unified facade configuration merge, together with theorems settling the
    specification claims. -/

namespace NodeMaw

/-! ## Version comparator (src/unnamed/part_007, `compareVersions`) -/

/-- Characters kept by the cleaning step of `compareVersions`:
    `version.replace(/[^0-9.]/g, '')` keeps digits and dots. -/
def keepVersionChar (c : Char) : Bool := c.isDigit || c = '.'

/-- JS `String.prototype.split('.')` over a character list:
    the empty string yields one empty segment, consecutive dots yield
    empty segments. -/
def splitOnDot : List Char → List (List Char)
  | [] => [[]]
  | c :: cs =>
    if c = '.' then [] :: splitOnDot cs
    else
      match splitOnDot cs with
      | [] => [[c]]
      | s :: ss => (c :: s) :: ss

/-- JS `Number(...)` applied to a cleaned, digits-only segment;
    `Number('')` is 0, so the empty segment parses to 0 (and the
    source's `parts[i] || 0` also maps a missing segment to 0). -/
def segToNat (cs : List Char) : Nat :=
  cs.foldl (fun acc c => acc * 10 + (c.toNat - 48)) 0

/-- Cleaned, split and parsed segment list of a version string
    (`cleanVersion.split('.').map(Number)`). -/
def versionSegs (v : String) : List Nat :=
  (splitOnDot (v.data.filter keepVersionChar)).map segToNat

/-- The `for (let i = 0; i < maxLength; i++)` comparison loop of
    `compareVersions`, with the remaining iteration count as fuel. -/
def compareSegsFrom (parts1 parts2 : List Nat) : Nat → Nat → Int
  | _, 0 => 0
  | i, fuel + 1 =>
    let part1 := parts1.getD i 0
    let part2 := parts2.getD i 0
    if part1 < part2 then -1
    else if part2 < part1 then 1
    else compareSegsFrom parts1 parts2 (i + 1) fuel

/-- Embedding of `compareVersions` (src/unnamed/part_007, lines 151-175). -/
def compareVersions (version1 version2 : String) : Int :=
  if version1 = version2 then 0
  else if version1 = "Unknown" ∨ version1 = "VARY" then -1
  else if version2 = "Unknown" ∨ version2 = "VARY" then 1
  else
    let parts1 := versionSegs version1
    let parts2 := versionSegs version2
    compareSegsFrom parts1 parts2 0 (max parts1.length parts2.length)

/-- Reference comparison of spec section 4.1 step 5: compare
    segment-by-segment left to right over the longer length, a missing
    segment of the shorter list standing for 0. -/
def specSegCompare : List Nat → List Nat → Int
  | [], [] => 0
  | x :: xs, [] => if 0 < x then 1 else specSegCompare xs []
  | [], y :: ys => if 0 < y then -1 else specSegCompare [] ys
  | x :: xs, y :: ys =>
    if x < y then -1 else if y < x then 1 else specSegCompare xs ys

/-- Reference algorithm of spec section 4.1 (literal equality, sentinel
    handling, strip, split/parse, longer-length segment comparison). -/
def compareVersionsSpec (a b : String) : Int :=
  if a = b then 0
  else if a = "Unknown" ∨ a = "VARY" then -1
  else if b = "Unknown" ∨ b = "VARY" then 1
  else specSegCompare (versionSegs a) (versionSegs b)

theorem getD_succ_tail (p : List Nat) (i : Nat) :
    p.getD (i + 1) 0 = p.tail.getD i 0 := by
  cases p <;> simp [List.getD]

theorem compareSegsFrom_shift (fuel : Nat) :
    ∀ (p1 p2 : List Nat) (i : Nat),
      compareSegsFrom p1 p2 (i + 1) fuel =
        compareSegsFrom p1.tail p2.tail i fuel := by
  induction fuel with
  | zero => intro p1 p2 i; rfl
  | succ n ih =>
    intro p1 p2 i
    simp only [compareSegsFrom, getD_succ_tail]
    rw [ih]

theorem compareSegsFrom_range (fuel : Nat) :
    ∀ (p1 p2 : List Nat) (i : Nat),
      compareSegsFrom p1 p2 i fuel = -1 ∨ compareSegsFrom p1 p2 i fuel = 0 ∨
        compareSegsFrom p1 p2 i fuel = 1 := by
  induction fuel with
  | zero => intro p1 p2 i; right; left; rfl
  | succ n ih =>
    intro p1 p2 i
    simp only [compareSegsFrom]
    split
    · left; rfl
    · split
      · right; right; rfl
      · exact ih p1 p2 (i + 1)

theorem compareSegsFrom_eq_spec (fuel : Nat) :
    ∀ (p1 p2 : List Nat), p1.length ≤ fuel → p2.length ≤ fuel →
      compareSegsFrom p1 p2 0 fuel = specSegCompare p1 p2 := by
  induction fuel with
  | zero =>
    intro p1 p2 h1 h2
    have e1 : p1 = [] := List.length_eq_zero.mp (Nat.le_zero.mp h1)
    have e2 : p2 = [] := List.length_eq_zero.mp (Nat.le_zero.mp h2)
    subst e1; subst e2; simp [compareSegsFrom, specSegCompare]
  | succ n ih =>
    intro p1 p2 h1 h2
    match p1, p2 with
    | [], [] =>
      simp only [compareSegsFrom, specSegCompare, List.getD_nil]
      rw [compareSegsFrom_shift]
      simp only [List.tail_nil]
      rw [ih [] [] (by simp) (by simp)]
      simp [specSegCompare]
    | [], y :: ys =>
      simp only [compareSegsFrom, specSegCompare, List.getD_nil, List.getD_cons_zero]
      rw [compareSegsFrom_shift]
      simp only [List.tail_nil, List.tail_cons]
      rw [ih [] ys (by simp) (by simpa using Nat.le_of_succ_le_succ h2)]
      by_cases hy : 0 < y
      · simp [hy]
      · simp [hy, Nat.le_zero.mp (Nat.not_lt.mp hy)]
    | x :: xs, [] =>
      simp only [compareSegsFrom, specSegCompare, List.getD_nil, List.getD_cons_zero]
      rw [compareSegsFrom_shift]
      simp only [List.tail_nil, List.tail_cons]
      rw [ih xs [] (by simpa using Nat.le_of_succ_le_succ h1) (by simp)]
      by_cases hx : 0 < x
      · simp [hx, Nat.not_lt.mpr (Nat.zero_le x)]
      · simp [hx, Nat.le_zero.mp (Nat.not_lt.mp hx)]
    | x :: xs, y :: ys =>
      simp only [compareSegsFrom, specSegCompare, List.getD_cons_zero]
      rw [compareSegsFrom_shift]
      simp only [List.tail_cons]
      rw [ih xs ys (by simpa using Nat.le_of_succ_le_succ h1)
            (by simpa using Nat.le_of_succ_le_succ h2)]

theorem compareVersions_eq_spec (a b : String) :
    compareVersions a b = compareVersionsSpec a b := by
  unfold compareVersions compareVersionsSpec
  split
  · rfl
  · split
    · rfl
    · split
      · rfl
      · exact compareSegsFrom_eq_spec _ _ _ (Nat.le_max_left _ _) (Nat.le_max_right _ _)

theorem compareVersions_range (a b : String) :
    compareVersions a b = -1 ∨ compareVersions a b = 0 ∨ compareVersions a b = 1 := by
  unfold compareVersions
  split
  · right; left; rfl
  · split
    · left; rfl
    · split
      · right; right; rfl
      · exact compareSegsFrom_range _ _ _ _

example : compareVersions "1.2.0" "1.10.0" = -1 := by decide
example : compareVersions "1.0" "1.0.0" = 0 := by decide
example : compareVersions "Unknown" "1.0.0" = -1 := by decide
example : compareVersions "1.0.0" "Unknown" = 1 := by decide

/-! ## Configuration records and the unified facade (src/src/index.ts,
    src/unnamed/part_006 `AppStoreClient`, src/src/play-store-client.ts
    `PlayStoreClient`) -/

/-- Fully-populated shared configuration (`Required<NodeMawConfig>`). -/
structure NodeMawConfigR where
  timeout : Int
  userAgent : String
  headers : List (String × String)
  retryEnabled : Bool
  retryAttempts : Int
deriving DecidableEq, Repr

/-- Fully-populated App Store client configuration
    (`Required<AppStoreConfig>`). -/
structure AppStoreConfigR where
  timeout : Int
  userAgent : String
  headers : List (String × String)
  retryEnabled : Bool
  retryAttempts : Int
  country : String
  includeMetadata : Bool
deriving DecidableEq, Repr

/-- Fully-populated Play Store client configuration
    (`Required<PlayStoreConfig>`). -/
structure PlayStoreConfigR where
  timeout : Int
  userAgent : String
  headers : List (String × String)
  retryEnabled : Bool
  retryAttempts : Int
  language : String
  country : String
  includeMetadata : Bool
deriving DecidableEq, Repr

/-- A caller-supplied `AppStoreConfig` object: each field optional
    (`none` models an absent key). -/
structure AppStoreConfigOpt where
  timeout : Option Int := none
  userAgent : Option String := none
  headers : Option (List (String × String)) := none
  retryEnabled : Option Bool := none
  retryAttempts : Option Int := none
  country : Option String := none
  includeMetadata : Option Bool := none
deriving DecidableEq, Repr

/-- A caller-supplied `PlayStoreConfig` object. -/
structure PlayStoreConfigOpt where
  timeout : Option Int := none
  userAgent : Option String := none
  headers : Option (List (String × String)) := none
  retryEnabled : Option Bool := none
  retryAttempts : Option Int := none
  language : Option String := none
  country : Option String := none
  includeMetadata : Option Bool := none
deriving DecidableEq, Repr

/-- A caller-supplied `UnifiedNodeMawConfig` object: the shared fields plus
    the two per-store override keys. -/
structure UnifiedConfigOpt where
  timeout : Option Int := none
  userAgent : Option String := none
  headers : Option (List (String × String)) := none
  retryEnabled : Option Bool := none
  retryAttempts : Option Int := none
  appStore : Option AppStoreConfigOpt := none
  playStore : Option PlayStoreConfigOpt := none
deriving DecidableEq, Repr

/-- JS `String.prototype.replace` with a string pattern: replace the first
    occurrence only, over character lists. -/
def replaceFirstAux (pat repl : List Char) : List Char → List Char
  | [] => []
  | c :: cs =>
    if pat.isPrefixOf (c :: cs) then repl ++ (c :: cs).drop pat.length
    else c :: replaceFirstAux pat repl cs

/-- JS `s.replace(pat, repl)` with a plain-string pattern (first occurrence;
    an empty pattern matches at the start, as in JS). -/
def replaceFirst (s pat repl : String) : String :=
  if pat.data.isEmpty then String.mk (repl.data ++ s.data)
  else String.mk (replaceFirstAux pat.data repl.data s.data)

/-- `AppStoreClient` constructor (src/unnamed/part_006, lines 29-47):
    defaults applied with `??` field by field. -/
def appStoreClientNew (config : AppStoreConfigOpt) : AppStoreConfigR where
  timeout := config.timeout.getD 10000
  userAgent := config.userAgent.getD "node-maw-appstore/1.0.0"
  headers := config.headers.getD []
  retryEnabled := config.retryEnabled.getD true
  retryAttempts := config.retryAttempts.getD 3
  country := config.country.getD "us"
  includeMetadata := config.includeMetadata.getD false

/-- `PlayStoreClient` constructor (src/src/play-store-client.ts,
    lines 30-41). -/
def playStoreClientNew (config : PlayStoreConfigOpt) : PlayStoreConfigR where
  timeout := config.timeout.getD 10000
  userAgent := config.userAgent.getD "node-maw-playstore/1.0.0"
  headers := config.headers.getD []
  retryEnabled := config.retryEnabled.getD true
  retryAttempts := config.retryAttempts.getD 3
  language := config.language.getD "en"
  country := config.country.getD "us"
  includeMetadata := config.includeMetadata.getD false

/-- `AppStoreClient.updateConfig`: spread-merge of the partial over the
    current configuration (present keys win). -/
def appStoreClientUpdateConfig (c : AppStoreConfigR) (p : AppStoreConfigOpt) :
    AppStoreConfigR where
  timeout := p.timeout.getD c.timeout
  userAgent := p.userAgent.getD c.userAgent
  headers := p.headers.getD c.headers
  retryEnabled := p.retryEnabled.getD c.retryEnabled
  retryAttempts := p.retryAttempts.getD c.retryAttempts
  country := p.country.getD c.country
  includeMetadata := p.includeMetadata.getD c.includeMetadata

/-- `PlayStoreClient.updateConfig`. -/
def playStoreClientUpdateConfig (c : PlayStoreConfigR) (p : PlayStoreConfigOpt) :
    PlayStoreConfigR where
  timeout := p.timeout.getD c.timeout
  userAgent := p.userAgent.getD c.userAgent
  headers := p.headers.getD c.headers
  retryEnabled := p.retryEnabled.getD c.retryEnabled
  retryAttempts := p.retryAttempts.getD c.retryAttempts
  language := p.language.getD c.language
  country := p.country.getD c.country
  includeMetadata := p.includeMetadata.getD c.includeMetadata

/-- Observable state of a `NodeMaw` facade: its own shared configuration and
    the configuration snapshots of the two owned store clients. -/
structure NodeMawState where
  config : NodeMawConfigR
  appStoreClient : AppStoreConfigR
  playStoreClient : PlayStoreConfigR
deriving DecidableEq, Repr

/-- `NodeMaw` constructor (src/src/index.ts, lines 52-76): resolve the shared
    configuration with defaults, then build each store client from
    `{...this.config, userAgent: substituted, ...storeOverride}`. -/
def nodeMawNew (config : UnifiedConfigOpt) : NodeMawState :=
  let cfg : NodeMawConfigR := {
    timeout := config.timeout.getD 10000
    userAgent := config.userAgent.getD "node-maw/1.0.0"
    headers := config.headers.getD []
    retryEnabled := config.retryEnabled.getD true
    retryAttempts := config.retryAttempts.getD 3 }
  let asOv := config.appStore.getD {}
  let appStoreConfig : AppStoreConfigOpt := {
    timeout := some (asOv.timeout.getD cfg.timeout)
    userAgent := some (asOv.userAgent.getD
      (replaceFirst cfg.userAgent "node-maw" "node-maw-appstore"))
    headers := some (asOv.headers.getD cfg.headers)
    retryEnabled := some (asOv.retryEnabled.getD cfg.retryEnabled)
    retryAttempts := some (asOv.retryAttempts.getD cfg.retryAttempts)
    country := asOv.country
    includeMetadata := asOv.includeMetadata }
  let psOv := config.playStore.getD {}
  let playStoreConfig : PlayStoreConfigOpt := {
    timeout := some (psOv.timeout.getD cfg.timeout)
    userAgent := some (psOv.userAgent.getD
      (replaceFirst cfg.userAgent "node-maw" "node-maw-playstore"))
    headers := some (psOv.headers.getD cfg.headers)
    retryEnabled := some (psOv.retryEnabled.getD cfg.retryEnabled)
    retryAttempts := some (psOv.retryAttempts.getD cfg.retryAttempts)
    language := psOv.language
    country := psOv.country
    includeMetadata := psOv.includeMetadata }
  { config := cfg
    appStoreClient := appStoreClientNew appStoreConfig
    playStoreClient := playStoreClientNew playStoreConfig }

/-- `Object.keys(newConfig).some(key => !['appStore','playStore'].includes(key))`:
    some shared (non-override) key is present in the partial. -/
def hasSharedKey (p : UnifiedConfigOpt) : Bool :=
  p.timeout.isSome || p.userAgent.isSome || p.headers.isSome ||
    p.retryEnabled.isSome || p.retryAttempts.isSome

/-- `NodeMaw.updateConfig` (src/src/index.ts, lines 151-173): merge the
    partial into the shared configuration, then push
    `{...this.config, ...newConfig.appStore}` (resp. `playStore`) to a store
    client when that store's override key or any shared key is present. -/
def nodeMawUpdateConfig (st : NodeMawState) (newConfig : UnifiedConfigOpt) :
    NodeMawState :=
  let cfg : NodeMawConfigR := {
    timeout := newConfig.timeout.getD st.config.timeout
    userAgent := newConfig.userAgent.getD st.config.userAgent
    headers := newConfig.headers.getD st.config.headers
    retryEnabled := newConfig.retryEnabled.getD st.config.retryEnabled
    retryAttempts := newConfig.retryAttempts.getD st.config.retryAttempts }
  let appStoreClient :=
    if newConfig.appStore.isSome || hasSharedKey newConfig then
      let ov := newConfig.appStore.getD {}
      appStoreClientUpdateConfig st.appStoreClient {
        timeout := some (ov.timeout.getD cfg.timeout)
        userAgent := some (ov.userAgent.getD cfg.userAgent)
        headers := some (ov.headers.getD cfg.headers)
        retryEnabled := some (ov.retryEnabled.getD cfg.retryEnabled)
        retryAttempts := some (ov.retryAttempts.getD cfg.retryAttempts)
        country := ov.country
        includeMetadata := ov.includeMetadata }
    else st.appStoreClient
  let playStoreClient :=
    if newConfig.playStore.isSome || hasSharedKey newConfig then
      let ov := newConfig.playStore.getD {}
      playStoreClientUpdateConfig st.playStoreClient {
        timeout := some (ov.timeout.getD cfg.timeout)
        userAgent := some (ov.userAgent.getD cfg.userAgent)
        headers := some (ov.headers.getD cfg.headers)
        retryEnabled := some (ov.retryEnabled.getD cfg.retryEnabled)
        retryAttempts := some (ov.retryAttempts.getD cfg.retryAttempts)
        language := ov.language
        country := ov.country
        includeMetadata := ov.includeMetadata }
    else st.playStoreClient
  { config := cfg
    appStoreClient := appStoreClient
    playStoreClient := playStoreClient }

/-- Claim-side merge of spec section 4.4 / claim C6: the App Store defaults,
    overridden by the caller's shared fields (with the user-agent token
    substitution), overridden by the App Store override object. -/
def claimAppStoreMerge (shared : UnifiedConfigOpt)
    (ov : Option AppStoreConfigOpt) : AppStoreConfigR :=
  let base := appStoreClientNew {}
  let withShared : AppStoreConfigR := { base with
    timeout := shared.timeout.getD base.timeout
    userAgent := match shared.userAgent with
      | some u => replaceFirst u "node-maw" "node-maw-appstore"
      | none => base.userAgent
    headers := shared.headers.getD base.headers
    retryEnabled := shared.retryEnabled.getD base.retryEnabled
    retryAttempts := shared.retryAttempts.getD base.retryAttempts }
  appStoreClientUpdateConfig withShared (ov.getD {})

/-- Claim-side merge of spec section 4.4 / claim C6 for the Play Store. -/
def claimPlayStoreMerge (shared : UnifiedConfigOpt)
    (ov : Option PlayStoreConfigOpt) : PlayStoreConfigR :=
  let base := playStoreClientNew {}
  let withShared : PlayStoreConfigR := { base with
    timeout := shared.timeout.getD base.timeout
    userAgent := match shared.userAgent with
      | some u => replaceFirst u "node-maw" "node-maw-playstore"
      | none => base.userAgent
    headers := shared.headers.getD base.headers
    retryEnabled := shared.retryEnabled.getD base.retryEnabled
    retryAttempts := shared.retryAttempts.getD base.retryAttempts }
  playStoreClientUpdateConfig withShared (ov.getD {})

example :
    (nodeMawNew { timeout := some 5000,
                  appStore := some { country := some "ca" } }).appStoreClient =
      { timeout := 5000, userAgent := "node-maw-appstore/1.0.0", headers := [],
        retryEnabled := true, retryAttempts := 3, country := "ca",
        includeMetadata := false } := by decide

example :
    (nodeMawNew { timeout := some 5000,
                  appStore := some { country := some "ca" } }).playStoreClient =
      { timeout := 5000, userAgent := "node-maw-playstore/1.0.0", headers := [],
        retryEnabled := true, retryAttempts := 3, language := "en",
        country := "us", includeMetadata := false } := by decide

/-! ## Error taxonomy, backend oracles and the retry loops
    (src/unnamed/part_007 error classes, src/unnamed/part_006
    `AppStoreClient`, src/src/play-store-client.ts `PlayStoreClient`) -/

/-- JS `Error` instances observable in this library: the three library error
    classes plus `AxiosError` and any other plain `Error`. -/
inductive JsErr where
  | appStoreE (message : String) (bundleId : String) (statusCode : Option Nat)
  | playStoreE (message : String) (packageName : String) (statusCode : Option Nat)
  | networkE (message : String) (originalError : Option JsErr)
  | axiosE (message : String) (responseStatus : Option Nat)
  | plainE (message : String)

def JsErr.decEq : (a b : JsErr) → Decidable (a = b)
  | .appStoreE m x c, .appStoreE m' x' c' =>
    if h : m = m' ∧ x = x' ∧ c = c' then
      isTrue (by rcases h with ⟨rfl, rfl, rfl⟩; rfl)
    else
      isFalse (fun he => by injection he with h1 h2 h3; exact h ⟨h1, h2, h3⟩)
  | .playStoreE m x c, .playStoreE m' x' c' =>
    if h : m = m' ∧ x = x' ∧ c = c' then
      isTrue (by rcases h with ⟨rfl, rfl, rfl⟩; rfl)
    else
      isFalse (fun he => by injection he with h1 h2 h3; exact h ⟨h1, h2, h3⟩)
  | .axiosE m c, .axiosE m' c' =>
    if h : m = m' ∧ c = c' then
      isTrue (by rcases h with ⟨rfl, rfl⟩; rfl)
    else
      isFalse (fun he => by injection he with h1 h2; exact h ⟨h1, h2⟩)
  | .plainE m, .plainE m' =>
    if h : m = m' then isTrue (by rw [h])
    else isFalse (fun he => by injection he with h1; exact h h1)
  | .networkE m none, .networkE m' none =>
    if h : m = m' then isTrue (by rw [h])
    else isFalse (fun he => by injection he with h1 _; exact h h1)
  | .networkE m (some e), .networkE m' (some e') =>
    match JsErr.decEq e e' with
    | isTrue he =>
      if h : m = m' then isTrue (by rw [h, he])
      else isFalse (fun hx => by injection hx with h1 _; exact h h1)
    | isFalse he =>
      isFalse (fun hx => by
        injection hx with _ h2; injection h2 with h3; exact he h3)
  | .networkE _ none, .networkE _ (some _) =>
    isFalse (fun hx => by injection hx with _ h2; exact Option.noConfusion h2)
  | .networkE _ (some _), .networkE _ none =>
    isFalse (fun hx => by injection hx with _ h2; exact Option.noConfusion h2)
  | .appStoreE _ _ _, .playStoreE _ _ _ => isFalse (fun h => JsErr.noConfusion h)
  | .appStoreE _ _ _, .networkE _ _ => isFalse (fun h => JsErr.noConfusion h)
  | .appStoreE _ _ _, .axiosE _ _ => isFalse (fun h => JsErr.noConfusion h)
  | .appStoreE _ _ _, .plainE _ => isFalse (fun h => JsErr.noConfusion h)
  | .playStoreE _ _ _, .appStoreE _ _ _ => isFalse (fun h => JsErr.noConfusion h)
  | .playStoreE _ _ _, .networkE _ _ => isFalse (fun h => JsErr.noConfusion h)
  | .playStoreE _ _ _, .axiosE _ _ => isFalse (fun h => JsErr.noConfusion h)
  | .playStoreE _ _ _, .plainE _ => isFalse (fun h => JsErr.noConfusion h)
  | .networkE _ _, .appStoreE _ _ _ => isFalse (fun h => JsErr.noConfusion h)
  | .networkE _ _, .playStoreE _ _ _ => isFalse (fun h => JsErr.noConfusion h)
  | .networkE _ _, .axiosE _ _ => isFalse (fun h => JsErr.noConfusion h)
  | .networkE _ _, .plainE _ => isFalse (fun h => JsErr.noConfusion h)
  | .axiosE _ _, .appStoreE _ _ _ => isFalse (fun h => JsErr.noConfusion h)
  | .axiosE _ _, .playStoreE _ _ _ => isFalse (fun h => JsErr.noConfusion h)
  | .axiosE _ _, .networkE _ _ => isFalse (fun h => JsErr.noConfusion h)
  | .axiosE _ _, .plainE _ => isFalse (fun h => JsErr.noConfusion h)
  | .plainE _, .appStoreE _ _ _ => isFalse (fun h => JsErr.noConfusion h)
  | .plainE _, .playStoreE _ _ _ => isFalse (fun h => JsErr.noConfusion h)
  | .plainE _, .networkE _ _ => isFalse (fun h => JsErr.noConfusion h)
  | .plainE _, .axiosE _ _ => isFalse (fun h => JsErr.noConfusion h)

instance : DecidableEq JsErr := JsErr.decEq

def JsErr.message : JsErr → String
  | .appStoreE m _ _ => m
  | .playStoreE m _ _ => m
  | .networkE m _ => m
  | .axiosE m _ => m
  | .plainE m => m

/-- A thrown JS value: an `Error` instance or a non-`Error` value
    (carried as its `JSON.stringify` rendering). -/
inductive Thrown where
  | err (e : JsErr)
  | nonErr (jsonRepr : String)
deriving DecidableEq

/-- The fields of an App Store lookup record used by normalization. -/
structure AppStoreApp where
  bundleId : String
  version : String
  currentVersionReleaseDate : String
  releaseNotes : String
deriving DecidableEq, Repr

/-- `{resultCount, results}` body of an App Store lookup response. -/
structure AppStoreResponse where
  resultCount : Nat
  results : List AppStoreApp
deriving DecidableEq, Repr

/-- The `AppVersion` record returned by both clients. -/
structure AppVersionR where
  version : String
  releaseDate : String
  releaseNotes : Option String
  bundleId : Option String
  packageName : Option String
deriving DecidableEq, Repr

/-- JS whitespace characters relevant to `String.prototype.trim`. -/
def isJsSpace (c : Char) : Bool :=
  c = ' ' || c = '\t' || c = '\n' || c = '\r' || c = '\x0b' || c = '\x0c'

/-- `s.trim().length === 0`: the string is empty or all whitespace. -/
def jsTrimEmpty (s : String) : Bool := s.data.all isJsSpace

/-- One `try`-body of `AppStoreClient.getVersion` (lines 71-90): perform the
    lookup (the oracle stands for `this.client.get`, which either returns a
    response body or throws), apply the `resultCount === 0` and missing-first-
    result checks, and normalize the first result. -/
def appStoreAttemptBody (bundleId : String)
    (resp : Except Thrown AppStoreResponse) : Except Thrown AppVersionR :=
  match resp with
  | .error t => .error t
  | .ok data =>
    if data.resultCount = 0 then
      .error (.err (.appStoreE (s!"App not found: {bundleId}") bundleId (some 404)))
    else
      match data.results.head? with
      | none =>
        .error (.err (.appStoreE (s!"Invalid response format for {bundleId}")
          bundleId none))
      | some app =>
        .ok { version := app.version
              releaseDate := app.currentVersionReleaseDate
              releaseNotes := some app.releaseNotes
              bundleId := some app.bundleId
              packageName := none }

deriving instance DecidableEq for Except

/-- Outcome of a `getVersion` call: the returned value or raised error,
    the number of backend attempts performed, and the backoff waits (in
    milliseconds) performed between attempts. -/
structure RetryOutcome where
  result : Except JsErr AppVersionR
  attempts : Nat
  waits : List Nat
deriving DecidableEq

/-- `error.statusCode && error.statusCode >= 400 && error.statusCode < 500`
    (an absent status is falsy; 0 fails the range check as well as being
    falsy). -/
def isClientErrorCode : Option Nat → Bool
  | some sc => decide (400 ≤ sc) && decide (sc < 500)
  | none => false

/-- The `while (attempts < maxAttempts)` loop of `AppStoreClient.getVersion`
    (lines 68-121) with its catch-block classification; `fuel` counts the
    remaining loop iterations (`maxAttempts - attempts`). -/
def appStoreRetryLoop (bundleId : String)
    (oracle : Nat → Except Thrown AppStoreResponse) (maxAttempts : Int) :
    Nat → Nat → List Nat → RetryOutcome
  | 0, attempts, waits =>
    ⟨.error (.networkE
        (s!"Failed to fetch App Store version after {maxAttempts} attempts")
        none),
      attempts, waits⟩
  | fuel + 1, attempts, waits =>
    let n := attempts + 1
    match appStoreAttemptBody bundleId (oracle n) with
    | .ok v => ⟨.ok v, n, waits⟩
    | .error caught =>
      let isLast : Bool := decide (maxAttempts ≤ (n : Int))
      match caught with
      | .err (.appStoreE m b c) =>
        if isLast then ⟨.error (.appStoreE m b c), n, waits⟩
        else if isClientErrorCode c then ⟨.error (.appStoreE m b c), n, waits⟩
        else appStoreRetryLoop bundleId oracle maxAttempts fuel n
          (waits ++ [2 ^ n * 1000])
      | other =>
        if isLast then
          match other with
          | .err (.axiosE m st) =>
            ⟨.error (.appStoreE ("Failed to fetch App Store version: " ++ m)
              bundleId st), n, waits⟩
          | .err e =>
            ⟨.error (.networkE
              ("Network error while fetching App Store version: " ++ e.message)
              (some e)), n, waits⟩
          | .nonErr _ =>
            ⟨.error (.networkE
              "Network error while fetching App Store version: Unknown error"
              none), n, waits⟩
        else appStoreRetryLoop bundleId oracle maxAttempts fuel n
          (waits ++ [2 ^ n * 1000])

/-- `AppStoreClient.getVersion` (src/unnamed/part_006, lines 56-128).
    `none` as the bundle id models a non-string (e.g. null) argument. -/
def appStoreGetVersion (cfg : AppStoreConfigR) (bundleId : Option String)
    (oracle : Nat → Except Thrown AppStoreResponse) : RetryOutcome :=
  match bundleId with
  | none =>
    ⟨.error (.appStoreE "Bundle ID is required and must be a string" "" none),
      0, []⟩
  | some s =>
    if jsTrimEmpty s then
      ⟨.error (.appStoreE "Bundle ID cannot be empty" s none), 0, []⟩
    else
      let maxAttempts : Int := if cfg.retryEnabled then cfg.retryAttempts else 1
      appStoreRetryLoop s oracle maxAttempts maxAttempts.toNat 0 []

/-- A value of the `updated` field of a Play Store record: a numeric
    timestamp or a date string. -/
inductive DateVal where
  | num (n : Int)
  | str (s : String)
deriving DecidableEq, Repr

/-- The host date facilities used by `formatPlayStoreDate`: the current time
    rendered as ISO-8601, `new Date(number).toISOString()`, and string date
    parsing (`none` when `new Date(string)` is invalid). -/
structure DateEnv where
  nowISO : String
  numToISO : Int → String
  parseToISO : String → Option String

/-- `PlayStoreClient.formatPlayStoreDate` (lines 300-324): `!date` (absent,
    0 or the empty string) falls back to now; numeric timestamps convert;
    parseable strings convert; anything else falls back to now. -/
def formatPlayStoreDate (env : DateEnv) (date : Option DateVal) : String :=
  match date with
  | none => env.nowISO
  | some (.num n) => if n = 0 then env.nowISO else env.numToISO n
  | some (.str s) =>
    if s = "" then env.nowISO
    else
      match env.parseToISO s with
      | some iso => iso
      | none => env.nowISO

/-- One segment of the package-name grammar
    `[a-zA-Z][a-zA-Z0-9_]*`. -/
def isIdentSeg (cs : List Char) : Bool :=
  match cs with
  | [] => false
  | c :: rest => c.isAlpha && rest.all (fun d => d.isAlpha || d.isDigit || d = '_')

/-- The package-name regex
    `^[a-zA-Z][a-zA-Z0-9_]*(\.[a-zA-Z][a-zA-Z0-9_]*)+$` of
    `PlayStoreClient.getVersion` (line 61): at least two dot-separated
    identifier segments. -/
def validPackageName (s : String) : Bool :=
  let segs := splitOnDot s.data
  decide (2 ≤ segs.length) && segs.all isIdentSeg

/-- The fields of a `gplay.app` record used by normalization; `none` fields
    model absent/undefined values. -/
structure PlayAppDetails where
  version : Option String
  updated : Option DateVal
  recentChanges : Option String
deriving DecidableEq, Repr

/-- One `try`-body of `PlayStoreClient.getVersion` (lines 74-91): call
    `gplay.app` (the oracle; `ok none` models a null/undefined record, which
    trips the `!appDetails` check), then normalize. -/
def playStoreAttemptBody (packageName : String) (env : DateEnv)
    (resp : Except Thrown (Option PlayAppDetails)) : Except Thrown AppVersionR :=
  match resp with
  | .error t => .error t
  | .ok none =>
    .error (.err (.playStoreE (s!"App not found: {packageName}") packageName
      (some 404)))
  | .ok (some d) =>
    .ok { version := match d.version with
            | some v => if v = "" then "Unknown" else v
            | none => "Unknown"
          releaseDate := formatPlayStoreDate env d.updated
          releaseNotes := match d.recentChanges with
            | some rc => if rc = "" then none else some rc
            | none => none
          bundleId := none
          packageName := some packageName }

/-- Whether `needle` occurs as a contiguous run inside the second list
    (JS `String.prototype.includes`). -/
def hasSubstr (needle : List Char) : List Char → Bool
  | [] => needle.isEmpty
  | c :: cs => needle.isPrefixOf (c :: cs) || hasSubstr needle cs

/-- JS `hay.includes(needle)`. -/
def jsIncludes (hay needle : String) : Bool := hasSubstr needle.data hay.data

/-- The final-attempt classification of `PlayStoreClient.getVersion`
    (lines 94-124): substring-match the message of an `Error` for
    not-found / network, otherwise a generic `PlayStoreError`; non-`Error`
    throws become a `NetworkError` without a preserved cause. -/
def playStoreClassify (packageName : String) (caught : Thrown) : JsErr :=
  match caught with
  | .err e =>
    let m := e.message
    if jsIncludes m "not found" || jsIncludes m "404" then
      .playStoreE (s!"App not found: {packageName}") packageName (some 404)
    else if jsIncludes m "network" || jsIncludes m "timeout" then
      .networkE ("Network error while fetching Play Store version: " ++ m)
        (some e)
    else
      .playStoreE ("Failed to fetch Play Store version: " ++ m) packageName none
  | .nonErr r =>
    .networkE ("Unknown error while fetching Play Store version: " ++ r) none

/-- The `while (attempts < maxAttempts)` loop of `PlayStoreClient.getVersion`
    (lines 71-130): every failed non-final attempt backs off and retries;
    classification happens only when `attempts >= maxAttempts`. -/
def playStoreRetryLoop (packageName : String) (env : DateEnv)
    (oracle : Nat → Except Thrown (Option PlayAppDetails)) (maxAttempts : Int) :
    Nat → Nat → List Nat → RetryOutcome
  | 0, attempts, waits =>
    ⟨.error (.networkE
        (s!"Failed to fetch Play Store version after {maxAttempts} attempts")
        none),
      attempts, waits⟩
  | fuel + 1, attempts, waits =>
    let n := attempts + 1
    match playStoreAttemptBody packageName env (oracle n) with
    | .ok v => ⟨.ok v, n, waits⟩
    | .error caught =>
      if decide (maxAttempts ≤ (n : Int)) then
        ⟨.error (playStoreClassify packageName caught), n, waits⟩
      else
        playStoreRetryLoop packageName env oracle maxAttempts fuel n
          (waits ++ [2 ^ n * 1000])

/-- `PlayStoreClient.getVersion` (src/src/play-store-client.ts,
    lines 50-137). `none` as the package name models a non-string argument. -/
def playStoreGetVersion (cfg : PlayStoreConfigR) (env : DateEnv)
    (packageName : Option String)
    (oracle : Nat → Except Thrown (Option PlayAppDetails)) : RetryOutcome :=
  match packageName with
  | none =>
    ⟨.error (.playStoreE "Package name is required and must be a string" ""
      none), 0, []⟩
  | some s =>
    if jsTrimEmpty s then
      ⟨.error (.playStoreE "Package name cannot be empty" s none), 0, []⟩
    else if !validPackageName s then
      ⟨.error (.playStoreE
        (s!"Invalid package name format: {s}. Expected format: com.example.app")
        s none), 0, []⟩
    else
      let maxAttempts : Int := if cfg.retryEnabled then cfg.retryAttempts else 1
      playStoreRetryLoop s env oracle maxAttempts maxAttempts.toNat 0 []

/-- `AppStoreClient.exists` (lines 201-211): delegate to `getVersion`,
    convert an `AppStoreError` with `statusCode === 404` to `false`,
    re-raise anything else. -/
def appStoreExistsCheck (cfg : AppStoreConfigR) (bundleId : Option String)
    (oracle : Nat → Except Thrown AppStoreResponse) : Except JsErr Bool :=
  match (appStoreGetVersion cfg bundleId oracle).result with
  | .ok _ => .ok true
  | .error e =>
    match e with
    | .appStoreE m b sc =>
      if sc = some 404 then .ok false else .error (.appStoreE m b sc)
    | e => .error e

/-- `PlayStoreClient.exists` (lines 236-246). -/
def playStoreExistsCheck (cfg : PlayStoreConfigR) (env : DateEnv)
    (packageName : Option String)
    (oracle : Nat → Except Thrown (Option PlayAppDetails)) : Except JsErr Bool :=
  match (playStoreGetVersion cfg env packageName oracle).result with
  | .ok _ => .ok true
  | .error e =>
    match e with
    | .playStoreE m p sc =>
      if sc = some 404 then .ok false else .error (.playStoreE m p sc)
    | e => .error e

/-- The `UpdateCheckResult` record; `updateDetails = none` models the
    `undefined` field. -/
structure UpdateCheckResultR where
  updateAvailable : Bool
  currentVersion : String
  latestVersion : String
  versionComparison : Int
  updateDetails : Option AppVersionR
deriving DecidableEq, Repr

/-- `AppStoreClient.checkForUpdates` (lines 221-259). -/
def appStoreCheckForUpdates (cfg : AppStoreConfigR) (bundleId : String)
    (currentVersion : Option String)
    (oracle : Nat → Except Thrown AppStoreResponse) :
    Except JsErr UpdateCheckResultR :=
  match currentVersion with
  | none =>
    .error (.appStoreE "Current version is required and must be a string"
      bundleId none)
  | some cv =>
    if jsTrimEmpty cv then
      .error (.appStoreE "Current version cannot be empty" bundleId none)
    else
      match (appStoreGetVersion cfg (some bundleId) oracle).result with
      | .ok latestAppInfo =>
        let latestVersion := latestAppInfo.version
        let versionComparison := compareVersions cv latestVersion
        let updateAvailable : Bool := decide (versionComparison < 0)
        .ok { updateAvailable := updateAvailable
              currentVersion := cv
              latestVersion := latestVersion
              versionComparison := versionComparison
              updateDetails := if updateAvailable then some latestAppInfo else none }
      | .error e =>
        match e with
        | .appStoreE m b c => .error (.appStoreE m b c)
        | e => .error (.networkE ("Failed to check for updates: " ++ e.message)
            (some e))

/-- `PlayStoreClient.checkForUpdates` (lines 256-294). -/
def playStoreCheckForUpdates (cfg : PlayStoreConfigR) (env : DateEnv)
    (packageName : String) (currentVersion : Option String)
    (oracle : Nat → Except Thrown (Option PlayAppDetails)) :
    Except JsErr UpdateCheckResultR :=
  match currentVersion with
  | none =>
    .error (.playStoreE "Current version is required and must be a string"
      packageName none)
  | some cv =>
    if jsTrimEmpty cv then
      .error (.playStoreE "Current version cannot be empty" packageName none)
    else
      match (playStoreGetVersion cfg env (some packageName) oracle).result with
      | .ok latestAppInfo =>
        let latestVersion := latestAppInfo.version
        let versionComparison := compareVersions cv latestVersion
        let updateAvailable : Bool := decide (versionComparison < 0)
        .ok { updateAvailable := updateAvailable
              currentVersion := cv
              latestVersion := latestVersion
              versionComparison := versionComparison
              updateDetails := if updateAvailable then some latestAppInfo else none }
      | .error e =>
        match e with
        | .playStoreE m p c => .error (.playStoreE m p c)
        | e => .error (.networkE ("Failed to check for updates: " ++ e.message)
            (some e))

/-! ## Retry-loop invariants -/

/-- The backoff waits accumulated after `k` failed-and-retried attempts:
    `2^1, ..., 2^k` seconds, in milliseconds. -/
def expWaits (k : Nat) : List Nat :=
  (List.range k).map (fun i => 2 ^ (i + 1) * 1000)

theorem expWaits_succ (k : Nat) :
    expWaits (k + 1) = expWaits k ++ [2 ^ (k + 1) * 1000] := by
  simp [expWaits, List.range_succ]

/-- Invariant satisfied by the retry loops when entered after `start` prior
    attempts: monotone attempt count, at most `m.toNat` attempts in total, the
    wait trace is exactly the exponential-backoff sequence of the failed
    non-final attempts, and a loop that performed no attempt at all ends in
    the defensive fallback `NetworkError`. -/
def loopPost (m : Int) (msg : String) (start : Nat) (strict : Prop)
    (R : RetryOutcome) : Prop :=
  start ≤ R.attempts ∧ (strict → start + 1 ≤ R.attempts) ∧
    R.attempts ≤ m.toNat ∧ R.waits = expWaits (R.attempts - 1) ∧
    (R.attempts = 0 → R.result = Except.error (.networkE msg none))

theorem loopPost_direct (m : Int) (msg : String) (strict : Prop)
    (res : Except JsErr AppVersionR) (start : Nat)
    (h : start + 1 ≤ m.toNat) :
    loopPost m msg start strict ⟨res, start + 1, expWaits start⟩ := by
  refine ⟨Nat.le_succ _, fun _ => le_rfl, h, ?_, by simp⟩
  simp

theorem loopPost_step (m : Int) (msg : String) (start : Nat)
    (strict strict' : Prop) (R : RetryOutcome)
    (h : loopPost m msg (start + 1) strict' R) :
    loopPost m msg start strict R := by
  obtain ⟨h1, _, h3, h4, h5⟩ := h
  exact ⟨Nat.le_of_succ_le h1, fun _ => h1, h3, h4, h5⟩

theorem appStoreRetryLoop_inv (bid : String)
    (oracle : Nat → Except Thrown AppStoreResponse) (m : Int) :
    ∀ fuel attempts, fuel + attempts = m.toNat →
      ((attempts : Int) < m ∨ attempts = 0) →
      loopPost m (s!"Failed to fetch App Store version after {m} attempts")
        attempts (fuel ≠ 0)
        (appStoreRetryLoop bid oracle m fuel attempts (expWaits attempts)) := by
  intro fuel
  induction fuel with
  | zero =>
    intro attempts hsum hd
    have ha : attempts = 0 := by
      rcases hd with hlt | h0
      · have hle : m ≤ (m.toNat : Int) := Int.self_le_toNat m
        omega
      · exact h0
    subst ha
    exact ⟨le_rfl, fun h => absurd rfl h, Nat.zero_le _, rfl, fun _ => rfl⟩
  | succ fuel ih =>
    intro attempts hsum hd
    have hbound : attempts + 1 ≤ m.toNat := by omega
    simp only [appStoreRetryLoop]
    cases hbody : appStoreAttemptBody bid (oracle (attempts + 1)) with
    | ok v => exact loopPost_direct m _ _ _ attempts hbound
    | error caught =>
      by_cases hL : m ≤ ((attempts + 1 : Nat) : Int)
      · cases caught with
        | err e =>
          cases e
          all_goals
            simp only [decide_eq_true_eq]
            rw [if_pos hL]
            exact loopPost_direct m _ _ _ attempts hbound
        | nonErr r =>
          simp only [decide_eq_true_eq]
          rw [if_pos hL]
          exact loopPost_direct m _ _ _ attempts hbound
      · have hrec : loopPost m
            (s!"Failed to fetch App Store version after {m} attempts")
            attempts (fuel + 1 ≠ 0)
            (appStoreRetryLoop bid oracle m fuel (attempts + 1)
              (expWaits attempts ++ [2 ^ (attempts + 1) * 1000])) := by
          rw [← expWaits_succ]
          exact loopPost_step m _ attempts _ _ _
            (ih (attempts + 1) (by omega) (Or.inl (by omega)))
        cases caught with
        | err e =>
          cases e with
          | appStoreE em eb ec =>
            simp only [decide_eq_true_eq]
            rw [if_neg hL]
            by_cases hC : isClientErrorCode ec = true
            · rw [if_pos hC]
              exact loopPost_direct m _ _ _ attempts hbound
            · rw [if_neg hC]
              exact hrec
          | playStoreE em ep ec =>
            simp only [decide_eq_true_eq]
            rw [if_neg hL]
            exact hrec
          | networkE em ec =>
            simp only [decide_eq_true_eq]
            rw [if_neg hL]
            exact hrec
          | axiosE em ec =>
            simp only [decide_eq_true_eq]
            rw [if_neg hL]
            exact hrec
          | plainE em =>
            simp only [decide_eq_true_eq]
            rw [if_neg hL]
            exact hrec
        | nonErr r =>
          simp only [decide_eq_true_eq]
          rw [if_neg hL]
          exact hrec

theorem playStoreRetryLoop_inv (pn : String) (env : DateEnv)
    (oracle : Nat → Except Thrown (Option PlayAppDetails)) (m : Int) :
    ∀ fuel attempts, fuel + attempts = m.toNat →
      ((attempts : Int) < m ∨ attempts = 0) →
      loopPost m (s!"Failed to fetch Play Store version after {m} attempts")
        attempts (fuel ≠ 0)
        (playStoreRetryLoop pn env oracle m fuel attempts (expWaits attempts)) := by
  intro fuel
  induction fuel with
  | zero =>
    intro attempts hsum hd
    have ha : attempts = 0 := by
      rcases hd with hlt | h0
      · have hle : m ≤ (m.toNat : Int) := Int.self_le_toNat m
        omega
      · exact h0
    subst ha
    exact ⟨le_rfl, fun h => absurd rfl h, Nat.zero_le _, rfl, fun _ => rfl⟩
  | succ fuel ih =>
    intro attempts hsum hd
    have hbound : attempts + 1 ≤ m.toNat := by omega
    simp only [playStoreRetryLoop]
    cases hbody : playStoreAttemptBody pn env (oracle (attempts + 1)) with
    | ok v => exact loopPost_direct m _ _ _ attempts hbound
    | error caught =>
      by_cases hL : m ≤ ((attempts + 1 : Nat) : Int)
      · simp only [decide_eq_true_eq]
        rw [if_pos hL]
        exact loopPost_direct m _ _ _ attempts hbound
      · simp only [decide_eq_true_eq]
        rw [if_neg hL]
        rw [← expWaits_succ]
        exact loopPost_step m _ attempts _ _ _
          (ih (attempts + 1) (by omega) (Or.inl (by omega)))

/-! ## Concrete fixtures used by counterexamples and witnesses -/

/-- Default-constructed App Store client configuration. -/
def asCfgD : AppStoreConfigR := appStoreClientNew {}

/-- Default-constructed Play Store client configuration. -/
def psCfgD : PlayStoreConfigR := playStoreClientNew {}

/-- A fixed date environment. -/
def dateEnv0 : DateEnv :=
  ⟨"1970-01-01T00:00:00.000Z", fun _ => "1970-01-01T00:00:00.000Z",
    fun _ => none⟩

/-- App Store backend that always answers with zero results (not found). -/
def oracleNotFoundAS : Nat → Except Thrown AppStoreResponse :=
  fun _ => .ok ⟨0, []⟩

/-- Play Store backend that always answers with a null record (not found). -/
def oracleNotFoundPS : Nat → Except Thrown (Option PlayAppDetails) :=
  fun _ => .ok none

/-- An App Store record whose bundle id has no dots. -/
def appNodots : AppStoreApp :=
  ⟨"nodots", "1.0.0", "2024-01-15T00:00:00Z", "Bug fixes"⟩

/-- App Store backend that always finds `appNodots`. -/
def oracleOkNodots : Nat → Except Thrown AppStoreResponse :=
  fun _ => .ok ⟨1, [appNodots]⟩

/-- App Store backend whose requests always time out at the transport level:
    an `AxiosError` with no response received. -/
def oracleTimeoutAS : Nat → Except Thrown AppStoreResponse :=
  fun _ => .error (.err (.axiosE "timeout of 10000ms exceeded" none))

/-! ## Claim theorems -/

/-- Claim C1: `compareVersions` always returns a value in -1, 0, 1, equals
    the reference algorithm of spec section 4.1, and satisfies the quoted
    instances (`compareVersions v v = 0`, the numeric segment comparison,
    missing segments as 0, and the sentinel cases). -/
theorem C1_compareVersions_correct :
    (∀ a b, compareVersions a b = -1 ∨ compareVersions a b = 0 ∨
        compareVersions a b = 1) ∧
    (∀ a b, compareVersions a b = compareVersionsSpec a b) ∧
    (∀ v, compareVersions v v = 0) ∧
    compareVersions "1.2.0" "1.10.0" = -1 ∧
    compareVersions "1.0" "1.0.0" = 0 ∧
    compareVersions "Unknown" "1.0.0" = -1 ∧
    compareVersions "1.0.0" "Unknown" = 1 :=
  ⟨compareVersions_range, compareVersions_eq_spec,
    fun v => by simp [compareVersions], by decide, by decide, by decide,
    by decide⟩

/-- Claim C2 is false on the code: with the default Play-Store configuration
    (retry enabled, 3 attempts) and a backend that reports not-found on every
    attempt, the store-semantic not-found failure is not raised immediately
    on attempt 1: the client performs all 3 attempts with backoff waits of
    2 and 4 seconds before raising the 404 `PlayStoreError`. -/
theorem C2_counterexample :
    (playStoreGetVersion psCfgD dateEnv0 (some "com.example.app")
        oracleNotFoundPS).attempts = 3 ∧
    (playStoreGetVersion psCfgD dateEnv0 (some "com.example.app")
        oracleNotFoundPS).waits = [2000, 4000] ∧
    (playStoreGetVersion psCfgD dateEnv0 (some "com.example.app")
        oracleNotFoundPS).result =
      .error (.playStoreE "App not found: com.example.app" "com.example.app"
        (some 404)) := by
  refine ⟨by decide, by decide, by decide⟩

/-- Claim C2 amended: immediate raising of non-retryable store failures holds
    only for the App-Store client, where an `AppStoreError` with a 4xx status
    (404 not-found included) thrown during any attempt is raised at once,
    without consuming further attempts and without any backoff wait. The
    Play-Store client instead classifies only on the final attempt: any
    failure of a non-final attempt, not-found included, is followed by a
    backoff wait and another attempt. -/
theorem C2_amended :
    (∀ (bid : String) oracle (m : Int) fuel attempts waits em eb sc,
      appStoreAttemptBody bid (oracle (attempts + 1)) =
        .error (.err (.appStoreE em eb (some sc))) →
      400 ≤ sc → sc < 500 →
      appStoreRetryLoop bid oracle m (fuel + 1) attempts waits =
        ⟨.error (.appStoreE em eb (some sc)), attempts + 1, waits⟩) ∧
    (∀ (pn : String) env oracle (m : Int) fuel attempts waits caught,
      playStoreAttemptBody pn env (oracle (attempts + 1)) = .error caught →
      ¬(m ≤ ((attempts + 1 : Nat) : Int)) →
      playStoreRetryLoop pn env oracle m (fuel + 1) attempts waits =
        playStoreRetryLoop pn env oracle m fuel (attempts + 1)
          (waits ++ [2 ^ (attempts + 1) * 1000])) := by
  constructor
  · intro bid oracle m fuel attempts waits em eb sc hbody h1 h2
    have hC : isClientErrorCode (some sc) = true := by
      simp [isClientErrorCode, h1, h2]
    simp only [appStoreRetryLoop, hbody]
    by_cases hL : m ≤ ((attempts + 1 : Nat) : Int)
    · simp only [decide_eq_true_eq]
      rw [if_pos hL]
    · simp only [decide_eq_true_eq]
      rw [if_neg hL, if_pos hC]
  · intro pn env oracle m fuel attempts waits caught hbody hL
    simp only [playStoreRetryLoop, hbody, decide_eq_true_eq]
    rw [if_neg hL]

theorem C2_amended_witness :
    appStoreRetryLoop "com.example.app" oracleNotFoundAS 3 3 0 [] =
      ⟨.error (.appStoreE "App not found: com.example.app" "com.example.app"
        (some 404)), 1, []⟩ :=
  C2_amended.1 "com.example.app" oracleNotFoundAS 3 2 0 []
    "App not found: com.example.app" "com.example.app" 404 (by decide)
    (by decide) (by decide)

/-- Claim C3 is false on the code: `"nodots"` is not a dotted identifier of
    at least 2 segments, yet `AppStoreClient.getVersion` performs a backend
    attempt for it and returns its result instead of raising a validation
    `AppStoreError` — the App-Store client has no dotted-grammar check. -/
theorem C3_counterexample :
    (appStoreGetVersion asCfgD (some "nodots") oracleOkNodots).attempts = 1 ∧
    (appStoreGetVersion asCfgD (some "nodots") oracleOkNodots).result =
      .ok ⟨"1.0.0", "2024-01-15T00:00:00Z", some "Bug fixes", some "nodots",
        none⟩ := by
  refine ⟨by decide, by decide⟩

/-- Claim C3 amended: non-string and empty (or all-whitespace) identifiers
    are rejected by both clients with a validation StoreError, with no
    backend attempt and no backoff; the two-or-more-dotted-segments grammar
    is enforced only by the Play-Store client, while the App-Store client
    enters the retry loop (performing a backend attempt whenever at least
    one attempt is allowed) for every non-empty string identifier. -/
theorem C3_amended :
    (∀ (cfg : AppStoreConfigR) oracle,
      appStoreGetVersion cfg none oracle =
        ⟨.error (.appStoreE "Bundle ID is required and must be a string" ""
          none), 0, []⟩) ∧
    (∀ (cfg : AppStoreConfigR) s oracle, jsTrimEmpty s = true →
      appStoreGetVersion cfg (some s) oracle =
        ⟨.error (.appStoreE "Bundle ID cannot be empty" s none), 0, []⟩) ∧
    (∀ (cfg : PlayStoreConfigR) env oracle,
      playStoreGetVersion cfg env none oracle =
        ⟨.error (.playStoreE "Package name is required and must be a string"
          "" none), 0, []⟩) ∧
    (∀ (cfg : PlayStoreConfigR) env s oracle, jsTrimEmpty s = true →
      playStoreGetVersion cfg env (some s) oracle =
        ⟨.error (.playStoreE "Package name cannot be empty" s none), 0, []⟩) ∧
    (∀ (cfg : PlayStoreConfigR) env s oracle, jsTrimEmpty s = false →
      validPackageName s = false →
      playStoreGetVersion cfg env (some s) oracle =
        ⟨.error (.playStoreE
          (s!"Invalid package name format: {s}. Expected format: com.example.app")
          s none), 0, []⟩) ∧
    (∀ (cfg : AppStoreConfigR) s oracle, jsTrimEmpty s = false →
      1 ≤ (if cfg.retryEnabled then cfg.retryAttempts else 1).toNat →
      1 ≤ (appStoreGetVersion cfg (some s) oracle).attempts) := by
  refine ⟨fun cfg oracle => rfl, ?_, fun cfg env oracle => rfl, ?_, ?_, ?_⟩
  · intro cfg s oracle h
    simp [appStoreGetVersion, h]
  · intro cfg env s oracle h
    simp [playStoreGetVersion, h]
  · intro cfg env s oracle h1 h2
    simp [playStoreGetVersion, h1, h2]
  · intro cfg s oracle h hm
    simp only [appStoreGetVersion, h, Bool.false_eq_true, if_false]
    rcases hft : (if cfg.retryEnabled then cfg.retryAttempts else 1).toNat with
      _ | k
    · omega
    · have hinv := appStoreRetryLoop_inv s oracle
        (if cfg.retryEnabled then cfg.retryAttempts else 1) (k + 1) 0
        (by omega) (Or.inr rfl)
      exact hinv.2.1 (Nat.succ_ne_zero k)

theorem C3_amended_witness :
    playStoreGetVersion psCfgD dateEnv0 (some "nodots") oracleNotFoundPS =
      ⟨.error (.playStoreE
        "Invalid package name format: nodots. Expected format: com.example.app"
        "nodots" none), 0, []⟩ :=
  C3_amended.2.2.2.2.1 psCfgD dateEnv0 "nodots" oracleNotFoundPS (by decide)
    (by decide)


/-- Play Store backend that always finds a record with version 1.0.0. -/
def oraclePS100 : Nat → Except Thrown (Option PlayAppDetails) :=
  fun _ => .ok (some ⟨some "1.0.0", none, none⟩)

/-- The normalized record that `playStoreGetVersion` produces from
    `oraclePS100` under `dateEnv0`. -/
def psV100 : AppVersionR :=
  ⟨"1.0.0", "1970-01-01T00:00:00.000Z", none, none, some "com.example.app"⟩

/-- Claim C4: a successful `checkForUpdates` with a non-empty current version
    reports `versionComparison = compareVersions(currentVersion,
    latestVersion)`, `updateAvailable = (versionComparison < 0)`, echoes both
    versions, and populates `updateDetails` with the plain `getVersion`
    result exactly when an update is available. -/
theorem C4_checkForUpdates :
    (∀ (cfg : PlayStoreConfigR) (env : DateEnv) (pn cv : String) oracle v,
      jsTrimEmpty cv = false →
      (playStoreGetVersion cfg env (some pn) oracle).result = .ok v →
      ∃ res, playStoreCheckForUpdates cfg env pn (some cv) oracle = .ok res ∧
        res.versionComparison = compareVersions cv v.version ∧
        res.updateAvailable = decide (res.versionComparison < 0) ∧
        res.currentVersion = cv ∧
        res.latestVersion = v.version ∧
        res.updateDetails = if res.updateAvailable then some v else none) ∧
    (∀ (cfg : AppStoreConfigR) (bid cv : String) oracle v,
      jsTrimEmpty cv = false →
      (appStoreGetVersion cfg (some bid) oracle).result = .ok v →
      ∃ res, appStoreCheckForUpdates cfg bid (some cv) oracle = .ok res ∧
        res.versionComparison = compareVersions cv v.version ∧
        res.updateAvailable = decide (res.versionComparison < 0) ∧
        res.currentVersion = cv ∧
        res.latestVersion = v.version ∧
        res.updateDetails = if res.updateAvailable then some v else none) := by
  constructor
  · intro cfg env pn cv oracle v h hok
    simp only [playStoreCheckForUpdates, h, Bool.false_eq_true, if_false, hok]
    exact ⟨_, rfl, rfl, rfl, rfl, rfl, rfl⟩
  · intro cfg bid cv oracle v h hok
    simp only [appStoreCheckForUpdates, h, Bool.false_eq_true, if_false, hok]
    exact ⟨_, rfl, rfl, rfl, rfl, rfl, rfl⟩

theorem C4_checkForUpdates_witness :
    ∃ res, playStoreCheckForUpdates psCfgD dateEnv0 "com.example.app"
        (some "0.0.1") oraclePS100 = .ok res ∧
      res.versionComparison = compareVersions "0.0.1" psV100.version ∧
      res.updateAvailable = decide (res.versionComparison < 0) ∧
      res.currentVersion = "0.0.1" ∧
      res.latestVersion = psV100.version ∧
      res.updateDetails = if res.updateAvailable then some psV100 else none :=
  C4_checkForUpdates.1 psCfgD dateEnv0 "com.example.app" "0.0.1" oraclePS100
    psV100 (by decide) (by decide)

/-- Claim C5: the facade `updateConfig` pushes a re-merge to a store client
    exactly when the partial holds that store's override key or any shared
    field: a shared-only partial updates both clients' snapshots, an
    override-only partial touches only its own store. -/
theorem C5_updateConfig_frame :
    (∀ (st : NodeMawState) (p : UnifiedConfigOpt),
      p.appStore = none → hasSharedKey p = false →
      (nodeMawUpdateConfig st p).appStoreClient = st.appStoreClient) ∧
    (∀ (st : NodeMawState) (p : UnifiedConfigOpt),
      p.playStore = none → hasSharedKey p = false →
      (nodeMawUpdateConfig st p).playStoreClient = st.playStoreClient) ∧
    (∀ (st : NodeMawState) (t : Int),
      (nodeMawUpdateConfig st { timeout := some t }).appStoreClient.timeout
          = t ∧
      (nodeMawUpdateConfig st { timeout := some t }).playStoreClient.timeout
          = t) ∧
    (∀ (st : NodeMawState) (ov : AppStoreConfigOpt),
      (nodeMawUpdateConfig st { appStore := some ov }).playStoreClient =
        st.playStoreClient) ∧
    (∀ (st : NodeMawState) (ov : PlayStoreConfigOpt),
      (nodeMawUpdateConfig st { playStore := some ov }).appStoreClient =
        st.appStoreClient) ∧
    (∀ (st : NodeMawState) (ov : AppStoreConfigOpt) (c : String),
      ov.country = some c →
      (nodeMawUpdateConfig st { appStore := some ov }).appStoreClient.country
        = c) := by
  refine ⟨?_, ?_, fun st t => ⟨rfl, rfl⟩, fun st ov => rfl, fun st ov => rfl,
    ?_⟩
  · intro st p h1 h2
    simp [nodeMawUpdateConfig, h1, h2]
  · intro st p h1 h2
    simp [nodeMawUpdateConfig, h1, h2]
  · intro st ov c h
    simp [nodeMawUpdateConfig, appStoreClientUpdateConfig, h]

theorem C5_updateConfig_frame_witness :
    (nodeMawUpdateConfig (nodeMawNew {})
        { appStore := some { country := some "ca" } }).playStoreClient =
      (nodeMawNew {}).playStoreClient ∧
    (nodeMawUpdateConfig (nodeMawNew {})
        { timeout := some 8000 }).appStoreClient.timeout = 8000 ∧
    (nodeMawUpdateConfig (nodeMawNew {})
        { timeout := some 8000 }).playStoreClient.timeout = 8000 ∧
    (nodeMawUpdateConfig (nodeMawNew {}) {}).appStoreClient =
      (nodeMawNew {}).appStoreClient :=
  ⟨C5_updateConfig_frame.2.2.2.1 (nodeMawNew {}) _,
    (C5_updateConfig_frame.2.2.1 (nodeMawNew {}) 8000).1,
    (C5_updateConfig_frame.2.2.1 (nodeMawNew {}) 8000).2,
    C5_updateConfig_frame.1 (nodeMawNew {}) {} rfl rfl⟩

/-- The spec's concrete construction scenario: shared timeout 5000 with an
    App-Store override setting country "ca". -/
def unified5000ca : UnifiedConfigOpt :=
  { timeout := some 5000, appStore := some { country := some "ca" } }

/-- Claim C6: each store client built by the facade constructor has exactly
    the configuration described by the spec merge — the store's defaults,
    overridden by the shared fields (with the user-agent token substitution),
    overridden by that store's own override — independent of the other
    store's override, and the spec's concrete scenario holds. -/
theorem C6_constructor_merge :
    (∀ config : UnifiedConfigOpt,
      (nodeMawNew config).appStoreClient =
        claimAppStoreMerge config config.appStore) ∧
    (∀ config : UnifiedConfigOpt,
      (nodeMawNew config).playStoreClient =
        claimPlayStoreMerge config config.playStore) ∧
    (∀ (config : UnifiedConfigOpt) ps1 ps2,
      (nodeMawNew { config with playStore := ps1 }).appStoreClient =
        (nodeMawNew { config with playStore := ps2 }).appStoreClient) ∧
    (∀ (config : UnifiedConfigOpt) as1 as2,
      (nodeMawNew { config with appStore := as1 }).playStoreClient =
        (nodeMawNew { config with appStore := as2 }).playStoreClient) ∧
    (nodeMawNew unified5000ca).appStoreClient =
      { timeout := 5000, userAgent := "node-maw-appstore/1.0.0",
        headers := [], retryEnabled := true, retryAttempts := 3,
        country := "ca", includeMetadata := false } ∧
    (nodeMawNew unified5000ca).playStoreClient =
      { timeout := 5000, userAgent := "node-maw-playstore/1.0.0",
        headers := [], retryEnabled := true, retryAttempts := 3,
        language := "en", country := "us", includeMetadata := false } := by
  refine ⟨?_, ?_, fun config ps1 ps2 => rfl, fun config as1 as2 => rfl,
    by decide, by decide⟩
  · intro config
    unfold nodeMawNew claimAppStoreMerge
    cases hU : config.userAgent <;> rfl
  · intro config
    unfold nodeMawNew claimPlayStoreMerge
    cases hU : config.userAgent <;> rfl

/-- Claim C7: `exists` returns false exactly when `getVersion` fails with
    that store's StoreError carrying statusCode 404, returns true when
    `getVersion` succeeds, and re-raises any other error unchanged. -/
theorem C7_exists_spec :
    (∀ (cfg : AppStoreConfigR) (bid : Option String) oracle,
      (appStoreExistsCheck cfg bid oracle = .ok false ↔
        ∃ em eb, (appStoreGetVersion cfg bid oracle).result =
          .error (.appStoreE em eb (some 404))) ∧
      (∀ v, (appStoreGetVersion cfg bid oracle).result = .ok v →
        appStoreExistsCheck cfg bid oracle = .ok true) ∧
      (∀ e, (appStoreGetVersion cfg bid oracle).result = .error e →
        (∀ em eb, e ≠ .appStoreE em eb (some 404)) →
        appStoreExistsCheck cfg bid oracle = .error e)) ∧
    (∀ (cfg : PlayStoreConfigR) (env : DateEnv) (pn : Option String) oracle,
      (playStoreExistsCheck cfg env pn oracle = .ok false ↔
        ∃ em ep, (playStoreGetVersion cfg env pn oracle).result =
          .error (.playStoreE em ep (some 404))) ∧
      (∀ v, (playStoreGetVersion cfg env pn oracle).result = .ok v →
        playStoreExistsCheck cfg env pn oracle = .ok true) ∧
      (∀ e, (playStoreGetVersion cfg env pn oracle).result = .error e →
        (∀ em ep, e ≠ .playStoreE em ep (some 404)) →
        playStoreExistsCheck cfg env pn oracle = .error e)) := by
  constructor
  · intro cfg bid oracle
    cases hr : (appStoreGetVersion cfg bid oracle).result with
    | ok v =>
      refine ⟨by simp [appStoreExistsCheck, hr],
        fun v' _ => by simp [appStoreExistsCheck, hr],
        fun e he _ => by simp [hr] at he⟩
    | error e =>
      have hv : ∀ (v : AppVersionR) (hc : Except.error e = Except.ok v),
          False := fun v hc => Except.noConfusion hc
      cases e with
      | appStoreE em eb sc =>
        by_cases hsc : sc = some 404
        · subst hsc
          refine ⟨?_, fun v hcon => absurd hcon (fun hc => hv v hc),
            fun e' he' hne => ?_⟩
          · simp only [appStoreExistsCheck, hr, if_pos rfl]
            exact ⟨fun _ => ⟨em, eb, rfl⟩, fun _ => rfl⟩
          · injection he' with h1
            exact absurd h1.symm (hne em eb)
        · refine ⟨?_, fun v hcon => absurd hcon (fun hc => hv v hc),
            fun e' he' hne => ?_⟩
          · simp only [appStoreExistsCheck, hr]
            rw [if_neg hsc]
            constructor
            · intro hcon
              exact Except.noConfusion hcon
            · rintro ⟨em', eb', heq⟩
              injection heq with h1
              injection h1 with _ _ h3
              exact absurd h3 hsc
          · injection he' with h1
            rw [← h1]
            simp only [appStoreExistsCheck, hr]
            rw [if_neg hsc]
      | playStoreE em ep sc =>
        refine ⟨?_, fun v hcon => absurd hcon (fun hc => hv v hc),
          fun e' he' _ => ?_⟩
        · simp [appStoreExistsCheck, hr]
        · injection he' with h1
          rw [← h1]
          simp [appStoreExistsCheck, hr]
      | networkE em ec =>
        refine ⟨?_, fun v hcon => absurd hcon (fun hc => hv v hc),
          fun e' he' _ => ?_⟩
        · simp [appStoreExistsCheck, hr]
        · injection he' with h1
          rw [← h1]
          simp [appStoreExistsCheck, hr]
      | axiosE em ec =>
        refine ⟨?_, fun v hcon => absurd hcon (fun hc => hv v hc),
          fun e' he' _ => ?_⟩
        · simp [appStoreExistsCheck, hr]
        · injection he' with h1
          rw [← h1]
          simp [appStoreExistsCheck, hr]
      | plainE em =>
        refine ⟨?_, fun v hcon => absurd hcon (fun hc => hv v hc),
          fun e' he' _ => ?_⟩
        · simp [appStoreExistsCheck, hr]
        · injection he' with h1
          rw [← h1]
          simp [appStoreExistsCheck, hr]
  · intro cfg env pn oracle
    cases hr : (playStoreGetVersion cfg env pn oracle).result with
    | ok v =>
      refine ⟨by simp [playStoreExistsCheck, hr],
        fun v' _ => by simp [playStoreExistsCheck, hr],
        fun e he _ => by simp [hr] at he⟩
    | error e =>
      have hv : ∀ (v : AppVersionR) (hc : Except.error e = Except.ok v),
          False := fun v hc => Except.noConfusion hc
      cases e with
      | playStoreE em ep sc =>
        by_cases hsc : sc = some 404
        · subst hsc
          refine ⟨?_, fun v hcon => absurd hcon (fun hc => hv v hc),
            fun e' he' hne => ?_⟩
          · simp only [playStoreExistsCheck, hr, if_pos rfl]
            exact ⟨fun _ => ⟨em, ep, rfl⟩, fun _ => rfl⟩
          · injection he' with h1
            exact absurd h1.symm (hne em ep)
        · refine ⟨?_, fun v hcon => absurd hcon (fun hc => hv v hc),
            fun e' he' hne => ?_⟩
          · simp only [playStoreExistsCheck, hr]
            rw [if_neg hsc]
            constructor
            · intro hcon
              exact Except.noConfusion hcon
            · rintro ⟨em', ep', heq⟩
              injection heq with h1
              injection h1 with _ _ h3
              exact absurd h3 hsc
          · injection he' with h1
            rw [← h1]
            simp only [playStoreExistsCheck, hr]
            rw [if_neg hsc]
      | appStoreE em eb sc =>
        refine ⟨?_, fun v hcon => absurd hcon (fun hc => hv v hc),
          fun e' he' _ => ?_⟩
        · simp [playStoreExistsCheck, hr]
        · injection he' with h1
          rw [← h1]
          simp [playStoreExistsCheck, hr]
      | networkE em ec =>
        refine ⟨?_, fun v hcon => absurd hcon (fun hc => hv v hc),
          fun e' he' _ => ?_⟩
        · simp [playStoreExistsCheck, hr]
        · injection he' with h1
          rw [← h1]
          simp [playStoreExistsCheck, hr]
      | axiosE em ec =>
        refine ⟨?_, fun v hcon => absurd hcon (fun hc => hv v hc),
          fun e' he' _ => ?_⟩
        · simp [playStoreExistsCheck, hr]
        · injection he' with h1
          rw [← h1]
          simp [playStoreExistsCheck, hr]
      | plainE em =>
        refine ⟨?_, fun v hcon => absurd hcon (fun hc => hv v hc),
          fun e' he' _ => ?_⟩
        · simp [playStoreExistsCheck, hr]
        · injection he' with h1
          rw [← h1]
          simp [playStoreExistsCheck, hr]

theorem C7_exists_spec_witness :
    appStoreExistsCheck asCfgD (some "com.example.app") oracleNotFoundAS =
      .ok false ∧
    appStoreExistsCheck asCfgD (some "nodots") oracleOkNodots = .ok true :=
  ⟨(C7_exists_spec.1 asCfgD (some "com.example.app") oracleNotFoundAS).1.mpr
      ⟨"App not found: com.example.app", "com.example.app", by decide⟩,
    (C7_exists_spec.1 asCfgD (some "nodots") oracleOkNodots).2.1
      ⟨"1.0.0", "2024-01-15T00:00:00Z", some "Bug fixes", some "nodots", none⟩
      (by decide)⟩


/-- Claim C8 is false on the code: with the default App-Store configuration,
    a transport-level timeout (an `AxiosError` with no usable response) on
    every attempt exhausts the retries and raises an `AppStoreError` (a
    StoreError with no status code), not a `NetworkError` wrapping the
    original failure. -/
theorem C8_counterexample :
    (appStoreGetVersion asCfgD (some "com.example.app")
        oracleTimeoutAS).attempts = 3 ∧
    (appStoreGetVersion asCfgD (some "com.example.app")
        oracleTimeoutAS).result =
      .error (.appStoreE
        "Failed to fetch App Store version: timeout of 10000ms exceeded"
        "com.example.app" none) := by
  refine ⟨by decide, by decide⟩

/-- Claim C8 amended: on the exhausted final attempt, the App-Store client
    wraps any `AxiosError` — whether or not a response was received — as an
    `AppStoreError` carrying the response status if any; it raises a
    `NetworkError` preserving the cause only for non-Axios `Error`
    exceptions, and a causeless `NetworkError` for non-`Error` throws. The
    Play-Store client classifies the final failure by `playStoreClassify`:
    message substrings "not found"/"404" give a 404 `PlayStoreError`,
    "network"/"timeout" give a `NetworkError` preserving the cause, any
    other `Error` gives a causeless generic `PlayStoreError`, and a
    non-`Error` throw gives a causeless `NetworkError`. -/
theorem C8_amended :
    (∀ (bid : String) oracle (m : Int) fuel attempts waits em st,
      appStoreAttemptBody bid (oracle (attempts + 1)) =
        .error (.err (.axiosE em st)) →
      m ≤ ((attempts + 1 : Nat) : Int) →
      appStoreRetryLoop bid oracle m (fuel + 1) attempts waits =
        ⟨.error (.appStoreE ("Failed to fetch App Store version: " ++ em) bid
          st), attempts + 1, waits⟩) ∧
    (∀ (bid : String) oracle (m : Int) fuel attempts waits em,
      appStoreAttemptBody bid (oracle (attempts + 1)) =
        .error (.err (.plainE em)) →
      m ≤ ((attempts + 1 : Nat) : Int) →
      appStoreRetryLoop bid oracle m (fuel + 1) attempts waits =
        ⟨.error (.networkE
          ("Network error while fetching App Store version: " ++ em)
          (some (.plainE em))), attempts + 1, waits⟩) ∧
    (∀ (bid : String) oracle (m : Int) fuel attempts waits r,
      appStoreAttemptBody bid (oracle (attempts + 1)) = .error (.nonErr r) →
      m ≤ ((attempts + 1 : Nat) : Int) →
      appStoreRetryLoop bid oracle m (fuel + 1) attempts waits =
        ⟨.error (.networkE
          "Network error while fetching App Store version: Unknown error"
          none), attempts + 1, waits⟩) ∧
    (∀ (pn : String) env oracle (m : Int) fuel attempts waits caught,
      playStoreAttemptBody pn env (oracle (attempts + 1)) = .error caught →
      m ≤ ((attempts + 1 : Nat) : Int) →
      playStoreRetryLoop pn env oracle m (fuel + 1) attempts waits =
        ⟨.error (playStoreClassify pn caught), attempts + 1, waits⟩) := by
  refine ⟨?_, ?_, ?_, ?_⟩
  · intro bid oracle m fuel attempts waits em st hbody hL
    simp only [appStoreRetryLoop, hbody, decide_eq_true_eq]
    rw [if_pos hL]
  · intro bid oracle m fuel attempts waits em hbody hL
    simp only [appStoreRetryLoop, hbody, decide_eq_true_eq]
    rw [if_pos hL]
    rfl
  · intro bid oracle m fuel attempts waits r hbody hL
    simp only [appStoreRetryLoop, hbody, decide_eq_true_eq]
    rw [if_pos hL]
  · intro pn env oracle m fuel attempts waits caught hbody hL
    simp only [playStoreRetryLoop, hbody, decide_eq_true_eq]
    rw [if_pos hL]

theorem C8_amended_witness :
    appStoreRetryLoop "com.example.app" oracleTimeoutAS 1 1 0 [] =
      ⟨.error (.appStoreE
        "Failed to fetch App Store version: timeout of 10000ms exceeded"
        "com.example.app" none), 1, []⟩ :=
  C8_amended.1 "com.example.app" oracleTimeoutAS 1 0 0 []
    "timeout of 10000ms exceeded" none (by decide) (by decide)

/-- Claim C9: for an identifier passing validation, `getVersion` performs at
    most `maxAttempts = retryEnabled ? retryAttempts : 1` backend attempts,
    waits exactly 2^n seconds (in milliseconds, attempt-indexed, no jitter,
    no cap) after each non-final failed attempt n, raises the defensive
    `NetworkError` naming the attempt count when the loop performed no
    attempt, and always ends in a value or a typed error. -/
theorem C9_retry_bounds :
    (∀ (cfg : AppStoreConfigR) (s : String) oracle (m : Int)
        (R : RetryOutcome),
      m = (if cfg.retryEnabled then cfg.retryAttempts else 1) →
      R = appStoreGetVersion cfg (some s) oracle →
      jsTrimEmpty s = false →
      R.attempts ≤ m.toNat ∧
      (1 ≤ m → (R.attempts : Int) ≤ m) ∧
      R.waits = expWaits (R.attempts - 1) ∧
      (R.attempts = 0 → R.result =
        .error (.networkE
          (s!"Failed to fetch App Store version after {m} attempts") none)) ∧
      ((∃ v, R.result = .ok v) ∨ ∃ e, R.result = .error e)) ∧
    (∀ (cfg : PlayStoreConfigR) env (s : String) oracle (m : Int)
        (R : RetryOutcome),
      m = (if cfg.retryEnabled then cfg.retryAttempts else 1) →
      R = playStoreGetVersion cfg env (some s) oracle →
      jsTrimEmpty s = false → validPackageName s = true →
      R.attempts ≤ m.toNat ∧
      (1 ≤ m → (R.attempts : Int) ≤ m) ∧
      R.waits = expWaits (R.attempts - 1) ∧
      (R.attempts = 0 → R.result =
        .error (.networkE
          (s!"Failed to fetch Play Store version after {m} attempts") none)) ∧
      ((∃ v, R.result = .ok v) ∨ ∃ e, R.result = .error e)) := by
  constructor
  · intro cfg s oracle m R hm hR h
    have hg : appStoreGetVersion cfg (some s) oracle =
        appStoreRetryLoop s oracle m m.toNat 0 [] := by
      rw [hm]
      simp [appStoreGetVersion, h]
    subst hR
    rw [hg]
    have hinv : loopPost m
        (s!"Failed to fetch App Store version after {m} attempts") 0
        (m.toNat ≠ 0) (appStoreRetryLoop s oracle m m.toNat 0 []) :=
      appStoreRetryLoop_inv s oracle m m.toNat 0 (by omega) (Or.inr rfl)
    obtain ⟨h1, h2, h3, h4, h5⟩ := hinv
    refine ⟨h3, fun hm1 => by omega, h4, h5, ?_⟩
    cases hres : (appStoreRetryLoop s oracle m m.toNat 0 []).result with
    | ok v => exact Or.inl ⟨v, rfl⟩
    | error e => exact Or.inr ⟨e, rfl⟩
  · intro cfg env s oracle m R hm hR h1 h2
    have hg : playStoreGetVersion cfg env (some s) oracle =
        playStoreRetryLoop s env oracle m m.toNat 0 [] := by
      rw [hm]
      simp [playStoreGetVersion, h1, h2]
    subst hR
    rw [hg]
    have hinv : loopPost m
        (s!"Failed to fetch Play Store version after {m} attempts") 0
        (m.toNat ≠ 0) (playStoreRetryLoop s env oracle m m.toNat 0 []) :=
      playStoreRetryLoop_inv s env oracle m m.toNat 0 (by omega) (Or.inr rfl)
    obtain ⟨ha, hb, hc, hd, he⟩ := hinv
    refine ⟨hc, fun hm1 => by omega, hd, he, ?_⟩
    cases hres : (playStoreRetryLoop s env oracle m m.toNat 0 []).result with
    | ok v => exact Or.inl ⟨v, rfl⟩
    | error e => exact Or.inr ⟨e, rfl⟩

theorem C9_retry_bounds_witness :
    (appStoreGetVersion asCfgD (some "com.example.app")
        oracleNotFoundAS).attempts ≤ (3 : Int).toNat ∧
    (appStoreGetVersion asCfgD (some "com.example.app")
        oracleNotFoundAS).waits =
      expWaits ((appStoreGetVersion asCfgD (some "com.example.app")
        oracleNotFoundAS).attempts - 1) :=
  ⟨(C9_retry_bounds.1 asCfgD "com.example.app" oracleNotFoundAS 3 _
      (by decide) rfl (by decide)).1,
    (C9_retry_bounds.1 asCfgD "com.example.app" oracleNotFoundAS 3 _
      (by decide) rfl (by decide)).2.2.1⟩

/-- Claim C10: with retry enabled and `retryAttempts ≤ 0`, a validated
    `getVersion` call performs zero backend attempts and raises the
    defensive-fallback `NetworkError` whose message reports failure after
    `maxAttempts` attempts — the "should never be reached" fallback is
    reachable through this public configuration. -/
theorem C10_fallback_reachable :
    (∀ (cfg : AppStoreConfigR) (s : String) oracle (m : Int),
      m = cfg.retryAttempts →
      cfg.retryEnabled = true → cfg.retryAttempts ≤ 0 →
      jsTrimEmpty s = false →
      appStoreGetVersion cfg (some s) oracle =
        ⟨.error (.networkE
          (s!"Failed to fetch App Store version after {m} attempts") none),
          0, []⟩) ∧
    (∀ (cfg : PlayStoreConfigR) env (s : String) oracle (m : Int),
      m = cfg.retryAttempts →
      cfg.retryEnabled = true → cfg.retryAttempts ≤ 0 →
      jsTrimEmpty s = false → validPackageName s = true →
      playStoreGetVersion cfg env (some s) oracle =
        ⟨.error (.networkE
          (s!"Failed to fetch Play Store version after {m} attempts") none),
          0, []⟩) := by
  constructor
  · intro cfg s oracle m hm hEn hle h
    subst hm
    have ht : cfg.retryAttempts.toNat = 0 := Int.toNat_of_nonpos hle
    simp [appStoreGetVersion, h, hEn, ht, appStoreRetryLoop]
  · intro cfg env s oracle m hm hEn hle h1 h2
    subst hm
    have ht : cfg.retryAttempts.toNat = 0 := Int.toNat_of_nonpos hle
    simp [playStoreGetVersion, h1, h2, hEn, ht, playStoreRetryLoop]

theorem C10_fallback_reachable_witness :
    appStoreGetVersion { asCfgD with retryAttempts := 0 }
        (some "com.example.app") oracleNotFoundAS =
      ⟨.error (.networkE "Failed to fetch App Store version after 0 attempts"
        none), 0, []⟩ :=
  C10_fallback_reachable.1 { asCfgD with retryAttempts := 0 }
    "com.example.app" oracleNotFoundAS 0 rfl rfl (by decide) (by decide)


end NodeMaw
